import Mathlib

/-!
Verification of the record-normalization and publish pipeline of `producer.py`
(vehicle-registration CSV → topic-based sink).

Modelling conventions (shallow embedding of the Python source):

* A raw CSV row (`csv.DictReader` row) is a mapping from column name to an
  optional string: `RawRecord := String → Option String`.
* Python `str.strip()` is modelled by `pyStrip`, which removes leading and
  trailing characters satisfying `Char.isWhitespace` (Python strips a slightly
  larger whitespace set; no claim depends on the exotic characters).
* Python `int(...)` / `float(...)` string parsing is modelled by `pyIntParse` /
  `pyFloatParse`.  A Python float is modelled exactly: a finite float literal
  denotes the exact decimal number written (mantissa, shift, exponent) with no
  IEEE-754 rounding and no overflow-to-infinity for huge finite literals, while
  the literal tokens "inf"/"infinity"/"nan" (case-insensitive, optional sign)
  are modelled by the `infinite`/`nan` constructors.  Underscore separators and
  non-ASCII digits accepted by Python are not modelled; no claim mentions them.
* `int()` applied to a float truncates toward zero; applied to `inf` it raises
  `OverflowError`, applied to `nan` it raises `ValueError`.  Fallible code is
  modelled with `Except PyErr`; `clean_numeric`'s `except ValueError` clauses
  catch only `valueError`, exactly as in the source.
* Coordinates extracted by `parse_vehicle_location` are kept as exact decimal
  numbers (`DecNum`, meaning `mantissa / 10 ^ shift`).
* `re.match` with the pattern `POINT \((-?\d+\.?\d*) (-?\d+\.?\d*)\)` anchors
  at the start of the string only (prefix match, arbitrary trailing text).  On
  this pattern a greedy left-to-right parse with no backtracking is equivalent
  to the regex engine: reducing any greedy piece always leaves a digit or a
  dot as the next unconsumed character, which can never satisfy the following
  literal ` ` or `)`.  `matchPoint` below is that parse.
-/

/-- Substring test: `containsSub hay needle` is true iff `needle` occurs
contiguously inside `hay`.  Models Python's `needle in hay` on strings. -/
def containsSub (hay needle : List Char) : Bool :=
  match hay with
  | [] => needle.isEmpty
  | _ :: t => needle.isPrefixOf hay || containsSub t needle

/-- Python `needle in hay` for `String`. -/
def pyContains (needle hay : String) : Bool :=
  containsSub hay.data needle.data

/-- Remove leading and trailing whitespace from a character list. -/
def stripList (l : List Char) : List Char :=
  ((l.dropWhile Char.isWhitespace).reverse.dropWhile Char.isWhitespace).reverse

/-- Python `str.strip()`. -/
def pyStrip (s : String) : String :=
  ⟨stripList s.data⟩

/-- Numeric value of a list of decimal digit characters (most significant first). -/
def digitsVal (l : List Char) : Nat :=
  l.foldl (fun n c => 10 * n + (c.toNat - 48)) 0

/-- `clean_string` from producer.py: `None`/blank becomes `None`, otherwise the
stripped string is returned. -/
def clean_string (value : Option String) : Option String :=
  match value with
  | none => none
  | some s => if pyStrip s = "" then none else some (pyStrip s)

/-- Python `int(s)` on a string: optional sign followed by one or more digits,
surrounding whitespace ignored; `none` models `ValueError`. -/
def pyIntParse (s : String) : Option Int :=
  match (pyStrip s).data with
  | '-' :: t => if !t.isEmpty && t.all Char.isDigit then some (-(digitsVal t : Int)) else none
  | '+' :: t => if !t.isEmpty && t.all Char.isDigit then some ((digitsVal t : Int)) else none
  | t => if !t.isEmpty && t.all Char.isDigit then some ((digitsVal t : Int)) else none

/-- Result of Python `float(s)`: an exact finite decimal
`mantissa * 10 ^ (exp - shift)`, an infinity, or a NaN. -/
inductive PyFloat where
  | finite (mantissa : Int) (shift : Nat) (exp : Int)
  | infinite (neg : Bool)
  | nan

/-- Mantissa of `<digits> [. <digits>]`: the digit string read as a natural
number together with the number of fraction digits.  At least one digit must be
present; a second dot or any other stray character is a parse error. -/
def parseMantissa (l : List Char) : Option (Nat × Nat) :=
  let ds := l.takeWhile Char.isDigit
  let r := l.dropWhile Char.isDigit
  match r with
  | [] => if ds.isEmpty then none else some (digitsVal ds, 0)
  | c :: t =>
    if c = '.' then
      if t.all Char.isDigit && (!ds.isEmpty || !t.isEmpty) then
        some (digitsVal ds * 10 ^ t.length + digitsVal t, t.length)
      else none
    else none

/-- Split a float literal at the first exponent marker `e`/`E`. -/
def splitExp (l : List Char) : List Char × Option (List Char) :=
  let m := l.takeWhile (fun c => !(c == 'e') && !(c == 'E'))
  match l.dropWhile (fun c => !(c == 'e') && !(c == 'E')) with
  | [] => (m, none)
  | _ :: t => (m, some t)

/-- Exponent part of a float literal: optional sign, one or more digits. -/
def parseExpInt (l : List Char) : Option Int :=
  match l with
  | '+' :: t => if !t.isEmpty && t.all Char.isDigit then some ((digitsVal t : Int)) else none
  | '-' :: t => if !t.isEmpty && t.all Char.isDigit then some (-(digitsVal t : Int)) else none
  | t => if !t.isEmpty && t.all Char.isDigit then some ((digitsVal t : Int)) else none

/-- Apply a sign to a natural number. -/
def condNeg (neg : Bool) (n : Nat) : Int :=
  if neg then -(n : Int) else (n : Int)

/-- Python `float(s)` on a string: optional sign, then (case-insensitively)
`inf`/`infinity`/`nan`, or a decimal mantissa with optional exponent.
`none` models `ValueError`. -/
def pyFloatParse (s : String) : Option PyFloat :=
  let l := (pyStrip s).data
  let sb : Bool × List Char :=
    match l with
    | '-' :: t => (true, t)
    | '+' :: t => (false, t)
    | t => (false, t)
  let neg := sb.1
  let b := sb.2
  let low := b.map Char.toLower
  if low = "inf".data ∨ low = "infinity".data then some (.infinite neg)
  else if low = "nan".data then some .nan
  else
    match splitExp b with
    | (m, none) =>
      match parseMantissa m with
      | some (mant, shift) => some (.finite (condNeg neg mant) shift 0)
      | none => none
    | (m, some ex) =>
      match parseMantissa m, parseExpInt ex with
      | some (mant, shift), some e => some (.finite (condNeg neg mant) shift e)
      | _, _ => none

/-- The Python exceptions distinguished by `clean_numeric`:
`except ValueError` catches `valueError` only. -/
inductive PyErr where
  | valueError
  | overflowError
deriving DecidableEq

/-- Truncation toward zero of the exact decimal `mantissa * 10 ^ (exp - shift)`:
Python `int()` applied to a finite float. -/
def truncDec (mantissa : Int) (shift : Nat) (exp : Int) : Int :=
  match exp - (shift : Int) with
  | .ofNat n => mantissa * ((10 ^ n : Nat) : Int)
  | .negSucc n => Int.tdiv mantissa ((10 ^ (n + 1) : Nat) : Int)

/-- Python `int(f)` for a float `f`: truncation toward zero for finite values,
`OverflowError` for infinities, `ValueError` for NaN. -/
def pyIntOfFloat : PyFloat → Except PyErr Int
  | .finite mantissa shift exp => .ok (truncDec mantissa shift exp)
  | .infinite _ => .error .overflowError
  | .nan => .error .valueError

/-- `clean_numeric` from producer.py.  `None`/blank gives the default; then
`int(value)` is attempted; on `ValueError`, `int(float(value))` is attempted,
whose `ValueError` again yields the default.  An `OverflowError` raised by
`int(float(value))` (e.g. for `"inf"`) is NOT caught by either
`except ValueError` clause and propagates. -/
def clean_numeric (value : Option String) (dflt : Int) : Except PyErr Int :=
  match value with
  | none => .ok dflt
  | some s =>
    if pyStrip s = "" then .ok dflt
    else
      match pyIntParse s with
      | some n => .ok n
      | none =>
        match pyFloatParse s with
        | none => .ok dflt
        | some f =>
          match pyIntOfFloat f with
          | .ok n => .ok n
          | .error .valueError => .ok dflt
          | .error .overflowError => .error .overflowError

/-- An exact decimal number `mantissa / 10 ^ shift`, the value of a float
literal as written (see the idealization note at the top of the file). -/
structure DecNum where
  mantissa : Int
  shift : Nat
deriving DecidableEq

/-- Rational value denoted by a `DecNum`. -/
def DecNum.toRat (d : DecNum) : ℚ :=
  (d.mantissa : ℚ) / ((10 ^ d.shift : Nat) : ℚ)

/-- Greedy parse of the regex piece `\d+\.?\d*`: one or more digits, an
optional dot, then any further digits.  Returns the decimal value and the
unconsumed remainder of the input. -/
def parseNumBody (l : List Char) : Option (DecNum × List Char) :=
  let ds := l.takeWhile Char.isDigit
  let r1 := l.dropWhile Char.isDigit
  if ds.isEmpty then none
  else
    match r1 with
    | [] => some (⟨(digitsVal ds : Int), 0⟩, [])
    | c :: t2 =>
      if c = '.' then
        some (⟨(digitsVal ds * 10 ^ (t2.takeWhile Char.isDigit).length
                  + digitsVal (t2.takeWhile Char.isDigit) : Nat),
               (t2.takeWhile Char.isDigit).length⟩,
              t2.dropWhile Char.isDigit)
      else some (⟨(digitsVal ds : Int), 0⟩, c :: t2)

/-- Greedy parse of the regex piece `-?\d+\.?\d*` (an optional minus sign is
consumed first; a plus sign is not accepted, exactly as in the source regex). -/
def parseNum (l : List Char) : Option (DecNum × List Char) :=
  match l with
  | [] => none
  | c :: t =>
    if c = '-' then
      match parseNumBody t with
      | some (d, r) => some (⟨-d.mantissa, d.shift⟩, r)
      | none => none
    else parseNumBody (c :: t)

/-- `re.match (r"POINT \((-?\d+\.?\d*) (-?\d+\.?\d*)\)", l)`: anchored at the
start of the input, arbitrary characters may follow the closing parenthesis.
Returns `(latitude, longitude)`, i.e. the second and then the first captured
number, exactly as `parse_vehicle_location` returns them. -/
def matchPoint (l : List Char) : Option (DecNum × DecNum) :=
  match l with
  | 'P' :: 'O' :: 'I' :: 'N' :: 'T' :: ' ' :: '(' :: r0 =>
    (match parseNum r0 with
     | none => none
     | some (lon, r1) =>
       match r1 with
       | ' ' :: r2 =>
         (match parseNum r2 with
          | none => none
          | some (lat, r3) =>
            match r3 with
            | ')' :: _ => some (lat, lon)
            | _ => none)
       | _ => none)
  | _ => none

/-- `parse_vehicle_location` from producer.py: `None`/blank input gives the
absent pair; otherwise the anchored regex match, returning
`(latitude, longitude)` with latitude taken from the second captured group. -/
def parse_vehicle_location (location_str : Option String) : Option DecNum × Option DecNum :=
  match location_str with
  | none => (none, none)
  | some s =>
    if pyStrip s = "" then (none, none)
    else
      match matchPoint s.data with
      | some (lat, lon) => (some lat, some lon)
      | none => (none, none)

/-- Derivation of `is_bev` (producer.py lines 89-93): `None` for a falsy
(absent or empty) `electric_vehicle_type`, otherwise the substring test
`"Battery Electric Vehicle" in ev_type`. -/
def derive_is_bev (ev_type : Option String) : Option Bool :=
  match ev_type with
  | none => none
  | some s => if s = "" then none else some (pyContains "Battery Electric Vehicle" s)

/-- Derivation of `range_category` (producer.py lines 96-104). -/
def derive_range_category (electric_range : Int) : String :=
  if electric_range = 0 then "Unknown"
  else if electric_range < 100 then "Short Range"
  else if electric_range < 200 then "Medium Range"
  else "Long Range"

/-- Derivation of `is_cafv_eligible` (producer.py lines 107-116): `None` for a
falsy `cafv_eligibility`; `True` if the text contains `"Eligible"` but not
`"Not eligible"`; else `False` if it contains `"Not eligible"`; else `None`. -/
def derive_is_cafv (cafv : Option String) : Option Bool :=
  match cafv with
  | none => none
  | some s =>
    if s = "" then none
    else if pyContains "Eligible" s && !(pyContains "Not eligible" s) then some true
    else if pyContains "Not eligible" s then some false
    else none

/-- One raw CSV row: `row.get(column)` as a map from column name to the raw
cell text (`none` for a missing column, as `dict.get` returns `None`). -/
def RawRecord : Type := String → Option String

/-- The cleaned record built by `clean_row` (producer.py lines 55-118). -/
structure CanonicalRecord where
  vin : Option String
  county : Option String
  city : Option String
  state : Option String
  postal_code : Option String
  make : Option String
  model : Option String
  electric_vehicle_type : Option String
  cafv_eligibility : Option String
  electric_utility : Option String
  model_year : Int
  electric_range : Int
  base_msrp : Int
  legislative_district : Int
  dol_vehicle_id : Int
  census_tract : Option String
  latitude : Option DecNum
  longitude : Option DecNum
  is_bev : Option Bool
  range_category : String
  is_cafv_eligible : Option Bool
deriving DecidableEq

/-- `clean_row` from producer.py.  The numeric coercions are sequenced in
source order inside `Except` because `clean_numeric` can raise an uncaught
`OverflowError` (see `clean_numeric`); everything else is pure. -/
def clean_row (row : RawRecord) : Except PyErr CanonicalRecord := do
  let vin := clean_string (row "VIN (1-10)")
  let county := clean_string (row "County")
  let city := clean_string (row "City")
  let state := clean_string (row "State")
  let postal_code := clean_string (row "Postal Code")
  let make := clean_string (row "Make")
  let model := clean_string (row "Model")
  let electric_vehicle_type := clean_string (row "Electric Vehicle Type")
  let cafv_eligibility := clean_string (row "Clean Alternative Fuel Vehicle (CAFV) Eligibility")
  let electric_utility := clean_string (row "Electric Utility")
  let model_year ← clean_numeric (row "Model Year") 0
  let electric_range ← clean_numeric (row "Electric Range") 0
  let base_msrp ← clean_numeric (row "Base MSRP") 0
  let legislative_district ← clean_numeric (row "Legislative District") 0
  let dol_vehicle_id ← clean_numeric (row "DOL Vehicle ID") 0
  let census_tract := clean_string (row "2020 Census Tract")
  let loc := parse_vehicle_location (row "Vehicle Location")
  pure
    { vin := vin
      county := county
      city := city
      state := state
      postal_code := postal_code
      make := make
      model := model
      electric_vehicle_type := electric_vehicle_type
      cafv_eligibility := cafv_eligibility
      electric_utility := electric_utility
      model_year := model_year
      electric_range := electric_range
      base_msrp := base_msrp
      legislative_district := legislative_district
      dol_vehicle_id := dol_vehicle_id
      census_tract := census_tract
      latitude := loc.1
      longitude := loc.2
      is_bev := derive_is_bev electric_vehicle_type
      range_category := derive_range_category electric_range
      is_cafv_eligible := derive_is_cafv cafv_eligibility }

/-- `is_valid_row` from producer.py: `vin`, `make` and `model` must all be
present. -/
def is_valid_row (cleaned_row : CanonicalRecord) : Bool :=
  cleaned_row.vin.isSome && cleaned_row.make.isSome && cleaned_row.model.isSome

/-- Outcome of the record loop of `run_producer` (producer.py lines 143-163):
the records handed to the sink in order, the two counters, and whether an
exception escaped the loop (in which case the run is aborted early by the
`except` handler and no completion summary is reported). -/
structure RunResult where
  sent : List CanonicalRecord
  count : Nat
  skipped : Nat
  aborted : Bool
deriving DecidableEq

/-- The record loop of `run_producer` over a finite source.  Each row is
cleaned; invalid rows bump `skipped`; valid rows are sent and bump `count`.
An exception from `clean_row` breaks out of the loop: the remaining rows are
not processed and the run is marked aborted. -/
def run_producer : List RawRecord → RunResult
  | [] => ⟨[], 0, 0, false⟩
  | r :: rs =>
    match clean_row r with
    | .error _ => ⟨[], 0, 0, true⟩
    | .ok c =>
      let rest := run_producer rs
      if is_valid_row c then ⟨c :: rest.sent, rest.count + 1, rest.skipped, rest.aborted⟩
      else ⟨rest.sent, rest.count, rest.skipped + 1, rest.aborted⟩

/-- The per-record publish decision: the canonical record if cleaning succeeds
and the validity gate passes, `none` otherwise.  A pure function of the single
raw record alone. -/
def publishStep (r : RawRecord) : Option CanonicalRecord :=
  match clean_row r with
  | .ok c => if is_valid_row c then some c else none
  | .error _ => none

/-- A well-formed captured number of the location regex, split into its parts:
an optional minus sign, the integer digits, and an optional fractional part
(the characters after the dot, possibly empty).  `numChars` below spells it
back as text of the regex shape `-?\d+\.?\d*`. -/
structure NumToken where
  neg : Bool
  ds : List Char
  frac : Option (List Char)

/-- The characters of the optional fractional part (dot included). -/
def fracChars : Option (List Char) → List Char
  | none => []
  | some fs => '.' :: fs

/-- The text of a `NumToken`. -/
def NumToken.chars (t : NumToken) : List Char :=
  (if t.neg then ['-'] else []) ++ t.ds ++ fracChars t.frac

/-- Well-formedness: at least one integer digit, and digits everywhere. -/
def NumToken.wfb (t : NumToken) : Bool :=
  !t.ds.isEmpty && t.ds.all Char.isDigit && (t.frac.getD []).all Char.isDigit

/-- The decimal value a `NumToken` denotes. -/
def NumToken.val (t : NumToken) : DecNum :=
  ⟨condNeg t.neg (digitsVal t.ds * 10 ^ (t.frac.getD []).length + digitsVal (t.frac.getD [])),
   (t.frac.getD []).length⟩

/-- The text `POINT (<lon> <lat>)<rest>` as a character list. -/
def pointList (lon lat : NumToken) (rest : List Char) : List Char :=
  'P' :: 'O' :: 'I' :: 'N' :: 'T' :: ' ' :: '(' :: (lon.chars ++ ' ' :: (lat.chars ++ ')' :: rest))

/-- A raw row holding only a VIN, a make and a model (every other column
absent). -/
def rawGood : RawRecord := fun k =>
  if k = "VIN (1-10)" then some "5YJ3E1EA7K"
  else if k = "Make" then some "TESLA"
  else if k = "Model" then some "MODEL 3"
  else none

/-- A raw row whose `Model Year` cell is `"inf"`: `clean_numeric` raises an
uncaught `OverflowError` on it (`int("inf")` raises `ValueError`, then
`int(float("inf"))` raises `OverflowError`, which `except ValueError` does not
catch). -/
def rawInf : RawRecord := fun k =>
  if k = "Model Year" then some "inf" else none

/-- The canonical record produced by `clean_row` for `rawGood`. -/
def goodClean : CanonicalRecord :=
  { vin := some "5YJ3E1EA7K"
    county := none
    city := none
    state := none
    postal_code := none
    make := some "TESLA"
    model := some "MODEL 3"
    electric_vehicle_type := none
    cafv_eligibility := none
    electric_utility := none
    model_year := 0
    electric_range := 0
    base_msrp := 0
    legislative_district := 0
    dol_vehicle_id := 0
    census_tract := none
    latitude := none
    longitude := none
    is_bev := none
    range_category := "Unknown"
    is_cafv_eligible := none }

theorem takeWhile_append_all {p : Char → Bool} (l₁ l₂ : List Char)
    (h₁ : ∀ a ∈ l₁, p a = true) (h₂ : ∀ c, l₂.head? = some c → p c = false) :
    (l₁ ++ l₂).takeWhile p = l₁ ∧ (l₁ ++ l₂).dropWhile p = l₂ := by
  induction l₁ with
  | nil =>
    cases l₂ with
    | nil => simp
    | cons c t => simp [List.takeWhile_cons, List.dropWhile_cons, h₂ c rfl]
  | cons a l ih =>
    have ha : p a = true := h₁ a (by simp)
    have ih2 := ih (fun b hb => h₁ b (by simp [hb]))
    simp [List.takeWhile_cons, List.dropWhile_cons, ha, ih2.1, ih2.2]

theorem parseNumBody_spec (ds : List Char) (frac : Option (List Char)) (rest : List Char)
    (hne : ds.isEmpty = false) (hds : ds.all Char.isDigit = true)
    (hf : (frac.getD []).all Char.isDigit = true)
    (hrest : ∀ c, rest.head? = some c → Char.isDigit c = false ∧ c ≠ '.') :
    parseNumBody (ds ++ (fracChars frac ++ rest))
      = some (⟨(digitsVal ds * 10 ^ (frac.getD []).length + digitsVal (frac.getD []) : Nat),
               (frac.getD []).length⟩, rest) := by
  have hds' : ∀ a ∈ ds, Char.isDigit a = true := by
    intro a ha; exact List.all_eq_true.mp hds a ha
  cases frac with
  | none =>
    have hsplit := takeWhile_append_all (p := Char.isDigit) ds rest hds'
      (fun c hc => (hrest c hc).1)
    simp only [fracChars, List.nil_append, Option.getD] at *
    unfold parseNumBody
    simp only [hsplit.1, hsplit.2, hne, Bool.false_eq_true, if_false]
    cases rest with
    | nil => simp [digitsVal]
    | cons c t =>
      have hc := hrest c rfl
      simp [hc.2, digitsVal]
  | some fs =>
    have hdot : ∀ c, (('.' :: (fs ++ rest)) : List Char).head? = some c → Char.isDigit c = false := by
      intro c hc
      simp only [List.head?] at hc
      cases hc
      decide
    have hsplit := takeWhile_append_all (p := Char.isDigit) ds ('.' :: (fs ++ rest)) hds' hdot
    have hfs' : ∀ a ∈ fs, Char.isDigit a = true := by
      intro a ha; exact List.all_eq_true.mp hf a ha
    have hsplit2 := takeWhile_append_all (p := Char.isDigit) fs rest hfs'
      (fun c hc => (hrest c hc).1)
    have harr : ds ++ (fracChars (some fs) ++ rest) = ds ++ ('.' :: (fs ++ rest)) := by
      simp [fracChars]
    rw [harr]
    unfold parseNumBody
    simp only [hsplit.1, hsplit.2, hne, Bool.false_eq_true, if_false]
    simp [hsplit2.1, hsplit2.2]

theorem parseNum_spec (t : NumToken) (rest : List Char) (ht : t.wfb = true)
    (hrest : ∀ c, rest.head? = some c → Char.isDigit c = false ∧ c ≠ '.') :
    parseNum (t.chars ++ rest) = some (t.val, rest) := by
  unfold NumToken.wfb at ht
  rw [Bool.and_eq_true, Bool.and_eq_true] at ht
  obtain ⟨⟨hne, hds⟩, hf⟩ := ht
  rw [Bool.not_eq_true'] at hne
  have hbody := parseNumBody_spec t.ds t.frac rest hne hds hf hrest
  cases hneg : t.neg with
  | true =>
    have hchars : t.chars ++ rest = '-' :: (t.ds ++ (fracChars t.frac ++ rest)) := by
      simp [NumToken.chars, hneg]
    rw [hchars]
    simp only [parseNum, if_pos rfl, hbody]
    simp [NumToken.val, hneg, condNeg]
  | false =>
    cases hds0 : t.ds with
    | nil => rw [hds0] at hne; simp at hne
    | cons d ds' =>
      have hchars : t.chars ++ rest = d :: (ds' ++ (fracChars t.frac ++ rest)) := by
        simp [NumToken.chars, hneg, hds0]
    
      have hd : Char.isDigit d = true := by
        have := List.all_eq_true.mp hds d (by rw [hds0]; simp)
        exact this
      have hdne : d ≠ '-' := by
        intro h
        rw [h] at hd
        exact absurd hd (by decide)
      rw [hchars]
      simp only [parseNum, if_neg hdne]
      have : d :: (ds' ++ (fracChars t.frac ++ rest)) = t.ds ++ (fracChars t.frac ++ rest) := by
        rw [hds0]; rfl
      rw [this, hbody]
      simp [NumToken.val, hneg, condNeg]

theorem matchPoint_pointList (lon lat : NumToken) (rest : List Char)
    (hlon : lon.wfb = true) (hlat : lat.wfb = true) :
    matchPoint (pointList lon lat rest) = some (lat.val, lon.val) := by
  have h1 : parseNum (lon.chars ++ ' ' :: (lat.chars ++ ')' :: rest))
      = some (lon.val, ' ' :: (lat.chars ++ ')' :: rest)) := by
    apply parseNum_spec lon _ hlon
    intro c hc
    simp only [List.head?] at hc
    cases hc
    exact ⟨by decide, by decide⟩
  have h2 : parseNum (lat.chars ++ ')' :: rest) = some (lat.val, ')' :: rest) := by
    apply parseNum_spec lat _ hlat
    intro c hc
    simp only [List.head?] at hc
    cases hc
    exact ⟨by decide, by decide⟩
  simp only [pointList, matchPoint, h1, h2]

theorem matchPoint_cons_ne (c : Char) (l : List Char) (hc : c ≠ 'P') :
    matchPoint (c :: l) = none := by
  rw [matchPoint.eq_def]
  split
  · rename_i heq
    injection heq with h1 _
    exact absurd h1 hc
  · rfl

theorem pyStrip_cons_ne (c : Char) (l : List Char) (hc : c.isWhitespace = false) :
    pyStrip ⟨c :: l⟩ ≠ "" := by
  intro h
  have hd : stripList (c :: l) = [] := by
    have := congrArg String.data h
    exact this
  unfold stripList at hd
  rw [List.dropWhile_cons, hc] at hd
  simp only [Bool.false_eq_true, if_false, List.reverse_eq_nil_iff] at hd
  have := List.dropWhile_eq_nil_iff.mp hd c (by simp)
  rw [this] at hc
  exact absurd hc (by simp)

theorem parse_pointList (lon lat : NumToken) (rest : List Char)
    (hlon : lon.wfb = true) (hlat : lat.wfb = true) :
    parse_vehicle_location (some ⟨pointList lon lat rest⟩) = (some lat.val, some lon.val) := by
  have hne : pyStrip ⟨pointList lon lat rest⟩ ≠ "" :=
    pyStrip_cons_ne 'P' _ (by decide)
  simp only [parse_vehicle_location]
  rw [if_neg hne]
  rw [matchPoint_pointList lon lat rest hlon hlat]

theorem parse_cons_ne_P (c : Char) (l : List Char) (hc : c ≠ 'P') :
    parse_vehicle_location (some ⟨c :: l⟩) = (none, none) := by
  simp only [parse_vehicle_location]
  by_cases h : pyStrip ⟨c :: l⟩ = ""
  · rw [if_pos h]
  · rw [if_neg h]
    rw [matchPoint_cons_ne c l hc]

theorem parse_both_or_neither (o : Option String) :
    (parse_vehicle_location o).1.isSome = (parse_vehicle_location o).2.isSome := by
  rcases o with _ | s
  · rfl
  · simp only [parse_vehicle_location]
    by_cases h : pyStrip s = ""
    · rw [if_pos h]
    · rw [if_neg h]
      rcases hm : matchPoint s.data with _ | ⟨lat, lon⟩ <;> simp [hm]

theorem run_producer_ok (src : List RawRecord)
    (h : src.all (fun r => (clean_row r).isOk) = true) :
    run_producer src = ⟨src.filterMap publishStep,
      src.countP (fun r => (publishStep r).isSome),
      src.countP (fun r => (publishStep r).isNone), false⟩ := by
  induction src with
  | nil => rfl
  | cons r rs ih =>
    rw [List.all_cons, Bool.and_eq_true] at h
    obtain ⟨h1, h2⟩ := h
    simp only [run_producer]
    cases hc : clean_row r with
    | error e => rw [hc] at h1; exact Bool.noConfusion h1
    | ok c =>
      rw [ih h2]
      have hp : publishStep r = if is_valid_row c then some c else none := by
        simp [publishStep, hc]
      by_cases hv : is_valid_row c = true
      · simp [hv, hp, List.filterMap_cons, List.countP_cons]
      · rw [Bool.not_eq_true] at hv
        simp [hv, hp, List.filterMap_cons, List.countP_cons]

theorem sent_all_valid (src : List RawRecord) :
    ∀ c ∈ (run_producer src).sent, is_valid_row c = true := by
  induction src with
  | nil => intro c hc; simp [run_producer] at hc
  | cons r rs ih =>
    intro c hc
    simp only [run_producer] at hc
    cases hcr : clean_row r with
    | error e => rw [hcr] at hc; simp at hc
    | ok d =>
      rw [hcr] at hc
      by_cases hv : is_valid_row d = true
      · simp only [hv, if_true, List.mem_cons] at hc
        rcases hc with rfl | hc
        · exact hv
        · exact ih c hc
      · rw [Bool.not_eq_true] at hv
        simp only [hv, Bool.false_eq_true, if_false] at hc
        exact ih c hc

theorem publishStep_sublist (l : List RawRecord) :
    (l.filterMap publishStep).Sublist (l.filterMap (fun r => (clean_row r).toOption)) := by
  induction l with
  | nil => simp
  | cons r rs ih =>
    have hp : publishStep r = match clean_row r with
        | .ok c => if is_valid_row c then some c else none
        | .error _ => none := rfl
    cases hc : clean_row r with
    | error e =>
      have ht : (clean_row r).toOption = none := by rw [hc]; rfl
      rw [hc] at hp
      simp only [List.filterMap_cons, hp, ht]
      exact ih
    | ok c =>
      have ht : (clean_row r).toOption = some c := by rw [hc]; rfl
      rw [hc] at hp
      by_cases hv : is_valid_row c = true
      · simp only [List.filterMap_cons, hp, ht, hv, if_true]
        exact ih.cons₂ c
      · rw [Bool.not_eq_true] at hv
        simp only [List.filterMap_cons, hp, ht, hv, Bool.false_eq_true, if_false]
        exact ih.cons c

theorem run_producer_abort (r : RawRecord) (rs : List RawRecord) (e : PyErr)
    (h : clean_row r = .error e) :
    run_producer (r :: rs) = ⟨[], 0, 0, true⟩ := by
  simp only [run_producer, h]

theorem clean_row_ok_fields (row : RawRecord) (c : CanonicalRecord)
    (h : clean_row row = .ok c) :
    c.is_cafv_eligible = derive_is_cafv c.cafv_eligibility
    ∧ c.range_category = derive_range_category c.electric_range
    ∧ c.is_bev = derive_is_bev c.electric_vehicle_type
    ∧ c.cafv_eligibility = clean_string (row "Clean Alternative Fuel Vehicle (CAFV) Eligibility")
    ∧ c.latitude.isSome = c.longitude.isSome := by
  unfold clean_row at h
  rcases h1 : clean_numeric (row "Model Year") 0 with e1 | n1 <;> rw [h1] at h
  · exact Except.noConfusion h
  rcases h2 : clean_numeric (row "Electric Range") 0 with e2 | n2 <;> rw [h2] at h
  · exact Except.noConfusion h
  rcases h3 : clean_numeric (row "Base MSRP") 0 with e3 | n3 <;> rw [h3] at h
  · exact Except.noConfusion h
  rcases h4 : clean_numeric (row "Legislative District") 0 with e4 | n4 <;> rw [h4] at h
  · exact Except.noConfusion h
  rcases h5 : clean_numeric (row "DOL Vehicle ID") 0 with e5 | n5 <;> rw [h5] at h
  · exact Except.noConfusion h
  have hc := (Except.ok.injEq _ _).mp h.symm
  subst hc
  refine ⟨rfl, rfl, rfl, rfl, ?_⟩
  exact (parse_both_or_neither (row "Vehicle Location")).symm ▸ rfl

theorem countP_publish_split (l : List RawRecord) :
    l.countP (fun r => (publishStep r).isSome) + l.countP (fun r => (publishStep r).isNone)
      = l.length := by
  induction l with
  | nil => rfl
  | cons r rs ih =>
    cases hp : publishStep r <;>
      simp [List.countP_cons, hp] <;> omega

/-- C1 counterexample: the claim "for every finite sequence of raw records the
pipeline submits to the sink exactly those canonical records that pass the
validity gate" is false as stated.  For the source `[rawInf, rawGood]` the
cleaning of `rawInf` raises an uncaught `OverflowError`, the loop is aborted,
and the passing record cleaned from `rawGood` is never submitted: the sink
receives `[]` instead of the one passing record. -/
theorem C1_claim_counterexample :
    ¬ ((run_producer [rawInf, rawGood]).sent = [rawInf, rawGood].filterMap publishStep) := by
  decide

/-- C1 (amended): provided every record of the source normalizes without an
unexpected exception, the pipeline submits to the sink exactly those canonical
records that pass the validity gate, as an order-preserving subsequence of the
cleaned source, and on completion (`aborted = false`) reports `count` equal to
the number of passing records and `skipped` equal to the number of failing
records, with `count + skipped` equal to the number of source records. -/
theorem C1_pipeline_exact (src : List RawRecord)
    (h : src.all (fun r => (clean_row r).isOk) = true) :
    (run_producer src).sent = src.filterMap publishStep
    ∧ (run_producer src).sent.Sublist (src.filterMap (fun r => (clean_row r).toOption))
    ∧ (run_producer src).count = src.countP (fun r => (publishStep r).isSome)
    ∧ (run_producer src).skipped = src.countP (fun r => (publishStep r).isNone)
    ∧ (run_producer src).count + (run_producer src).skipped = src.length
    ∧ (run_producer src).aborted = false := by
  have hr := run_producer_ok src h
  rw [hr]
  exact ⟨rfl, publishStep_sublist src, rfl, rfl, countP_publish_split src, rfl⟩

/-- Witness for `C1_pipeline_exact` at the one-record source `[rawGood]`. -/
theorem C1_pipeline_exact_witness :
    ([rawGood] : List RawRecord).all (fun r => (clean_row r).isOk) = true
    ∧ (run_producer [rawGood]).sent = [rawGood].filterMap publishStep
    ∧ (run_producer [rawGood]).count + (run_producer [rawGood]).skipped = 1 :=
  ⟨by decide, (C1_pipeline_exact [rawGood] (by decide)).1,
    (C1_pipeline_exact [rawGood] (by decide)).2.2.2.2.1⟩

/-- C6: `clean_numeric` on the claim's example inputs: `"2020"` parses as an
integer, `"2020.7"` falls back to the truncated float parse, `"abc"` and
absent/blank input give the default — but on `"inf"` the claim's "returns the
default when both parses fail" is violated: `int(float("inf"))` raises an
`OverflowError` that `except ValueError` does not catch, so `clean_numeric`
raises instead of returning the default. -/
theorem C6_coerce_integer_cases :
    clean_numeric (some "2020") 0 = .ok 2020
    ∧ clean_numeric (some "2020.7") 0 = .ok 2020
    ∧ clean_numeric (some "abc") 0 = .ok 0
    ∧ clean_numeric none 0 = .ok 0
    ∧ clean_numeric (some "   ") 7 = .ok 7
    ∧ clean_numeric (some "inf") 0 = .error .overflowError :=
  ⟨rfl, rfl, rfl, rfl, rfl, rfl⟩

/-- C7: `clean_numeric` is NOT total as claimed: on the input `"inf"` (any
default) it raises an uncaught `OverflowError` — `int("inf")` raises
`ValueError`, the fallback computes `float("inf") = inf`, and `int(inf)`
raises `OverflowError`, which the inner `except ValueError` does not catch. -/
theorem C7_coerce_integer_raises :
    clean_numeric (some "inf") 0 = .error .overflowError
    ∧ clean_numeric (some "-Infinity") 5 = .error .overflowError
    ∧ ∃ v dflt e, clean_numeric v dflt = .error e :=
  ⟨rfl, rfl, some "inf", 0, .overflowError, rfl⟩

/-- C8 counterexample: the claim "a record whose normalization raises is
counted as skipped and the remaining records are processed" is false as
stated: on the source `[rawInf, rawGood]` the run ends with `skipped = 0`
(the raising record is not counted) and `count = 0` (the remaining valid
record is never processed). -/
theorem C8_claim_counterexample :
    ¬ ((run_producer [rawInf, rawGood]).skipped = 1
        ∧ (run_producer [rawInf, rawGood]).count = 1) := by
  decide

/-- C8 (amended): if the normalization of a record raises, the `try/except`
that wraps the whole loop catches the exception OUTSIDE the loop: the record
is not counted as skipped, none of the remaining records are processed or
submitted, and the run is aborted early (no completion summary is printed);
the result is independent of the remaining records. -/
theorem C8_exception_aborts (r : RawRecord) (rs : List RawRecord) (e : PyErr)
    (h : clean_row r = .error e) :
    run_producer (r :: rs) = ⟨[], 0, 0, true⟩ :=
  run_producer_abort r rs e h

/-- Witness for `C8_exception_aborts` at `rawInf` followed by `rawGood`. -/
theorem C8_exception_aborts_witness :
    clean_row rawInf = .error .overflowError
    ∧ run_producer [rawInf, rawGood] = ⟨[], 0, 0, true⟩ :=
  ⟨rfl, C8_exception_aborts rawInf [rawGood] .overflowError rfl⟩

/-- C2: `is_valid_row` is true iff `vin`, `make` and `model` are all present;
consequently every record submitted to the sink by any run has `vin`, `make`
and `model` present — a canonical record with absent `vin` is never
submitted. -/
theorem C2_validity_gate (c : CanonicalRecord) (src : List RawRecord) (d : CanonicalRecord)
    (hd : d ∈ (run_producer src).sent) :
    (is_valid_row c = true ↔ (c.vin ≠ none ∧ c.make ≠ none ∧ c.model ≠ none))
    ∧ d.vin ≠ none ∧ d.make ≠ none ∧ d.model ≠ none := by
  have key : ∀ x : CanonicalRecord,
      is_valid_row x = true ↔ (x.vin ≠ none ∧ x.make ≠ none ∧ x.model ≠ none) := by
    intro x
    simp [is_valid_row, Bool.and_eq_true, Option.isSome_iff_ne_none, and_assoc]
  exact ⟨key c, (key d).mp (sent_all_valid src d hd)⟩

/-- Witness for `C2_validity_gate` with the valid record cleaned from
`rawGood`, a member of the sink output of the one-record run. -/
theorem C2_validity_gate_witness :
    goodClean ∈ (run_producer [rawGood]).sent
    ∧ goodClean.vin ≠ none ∧ goodClean.make ≠ none ∧ goodClean.model ≠ none :=
  ⟨by decide, (C2_validity_gate goodClean [rawGood] goodClean (by decide)).2⟩

/-- C9: the pipeline is deterministic — two runs over the same source agree —
and, provided every record normalizes without exception, its output is
`filterMap` of a pure per-record function of the source list, so each
canonical record is a function of its own raw record alone with no state
shared between records or runs. -/
theorem C9_deterministic (src : List RawRecord)
    (h : src.all (fun r => (clean_row r).isOk) = true) :
    run_producer src = run_producer src
    ∧ (run_producer src).sent = src.filterMap publishStep
    ∧ (run_producer src).count = src.countP (fun r => (publishStep r).isSome)
    ∧ (run_producer src).skipped = src.countP (fun r => (publishStep r).isNone) := by
  have hr := run_producer_ok src h
  rw [hr]
  exact ⟨rfl, rfl, rfl, rfl⟩

/-- Witness for `C9_deterministic` at the two-record source
`[rawGood, rawGood]`. -/
theorem C9_deterministic_witness :
    ([rawGood, rawGood] : List RawRecord).all (fun r => (clean_row r).isOk) = true
    ∧ run_producer [rawGood, rawGood] = run_producer [rawGood, rawGood]
    ∧ (run_producer [rawGood, rawGood]).sent = [rawGood, rawGood].filterMap publishStep :=
  ⟨by decide, (C9_deterministic [rawGood, rawGood] (by decide)).1,
    (C9_deterministic [rawGood, rawGood] (by decide)).2.1⟩

/-- C3: the `is_cafv_eligible` derivation: absent input gives absent; for
present text it is true iff the text contains `"Eligible"` and not
`"Not eligible"`, false iff it contains `"Not eligible"` (so text containing
both substrings yields false), and absent iff it contains neither; the checks
are case-sensitive (lowercase `"not eligible"` matches neither); and
`clean_row` derives the field exactly this way from the cleaned
`cafv_eligibility`. -/
theorem C3_cafv_rule (s : String) (row : RawRecord) (c : CanonicalRecord)
    (h : clean_row row = .ok c) :
    derive_is_cafv none = none
    ∧ (derive_is_cafv (some s) = some true
        ↔ (pyContains "Eligible" s = true ∧ pyContains "Not eligible" s = false))
    ∧ (derive_is_cafv (some s) = some false ↔ pyContains "Not eligible" s = true)
    ∧ (derive_is_cafv (some s) = none
        ↔ (pyContains "Eligible" s = false ∧ pyContains "Not eligible" s = false))
    ∧ (pyContains "Eligible" s = true → pyContains "Not eligible" s = true →
        derive_is_cafv (some s) = some false)
    ∧ derive_is_cafv (some "not eligible") = none
    ∧ derive_is_cafv (some "Not eligible due to low battery range") = some false
    ∧ derive_is_cafv (some "Clean Alternative Fuel Vehicle Eligible") = some true
    ∧ c.is_cafv_eligible = derive_is_cafv c.cafv_eligibility := by
  have hmain : ∀ u : String,
      (derive_is_cafv (some u) = some true
        ↔ (pyContains "Eligible" u = true ∧ pyContains "Not eligible" u = false))
      ∧ (derive_is_cafv (some u) = some false ↔ pyContains "Not eligible" u = true)
      ∧ (derive_is_cafv (some u) = none
        ↔ (pyContains "Eligible" u = false ∧ pyContains "Not eligible" u = false)) := by
    intro u
    by_cases hu : u = ""
    · subst hu; decide
    · cases hE : pyContains "Eligible" u <;> cases hN : pyContains "Not eligible" u <;>
        simp [derive_is_cafv, hu, hE, hN]
  refine ⟨rfl, (hmain s).1, (hmain s).2.1, (hmain s).2.2, ?_, by decide, by decide, by decide,
    (clean_row_ok_fields row c h).1⟩
  intro hE hN
  exact (hmain s).2.1.mpr hN

/-- Witness for `C3_cafv_rule` at the text `"Eligible; Not eligible"`, which
contains both substrings and is classified false. -/
theorem C3_cafv_rule_witness :
    clean_row rawGood = .ok goodClean
    ∧ (derive_is_cafv (some "Eligible; Not eligible") = some false
        ↔ pyContains "Not eligible" "Eligible; Not eligible" = true)
    ∧ goodClean.is_cafv_eligible = derive_is_cafv goodClean.cafv_eligibility :=
  ⟨rfl, (C3_cafv_rule "Eligible; Not eligible" rawGood goodClean rfl).2.2.1,
    (C3_cafv_rule "Eligible; Not eligible" rawGood goodClean rfl).2.2.2.2.2.2.2.2⟩

/-- C4: the `range_category` derivation: `"Unknown"` exactly when the range is
0, `"Short Range"` below 100, `"Medium Range"` from 100 up to 199,
`"Long Range"` from 200 on; the boundary values behave as claimed; the result
is always one of the four category strings; and `clean_row` derives the field
exactly this way from the cleaned `electric_range`. -/
theorem C4_range_category (n : Int) (row : RawRecord) (c : CanonicalRecord)
    (h : clean_row row = .ok c) :
    (derive_range_category n = "Unknown" ↔ n = 0)
    ∧ (n ≠ 0 → n < 100 → derive_range_category n = "Short Range")
    ∧ (n ≠ 0 → 100 ≤ n → n < 200 → derive_range_category n = "Medium Range")
    ∧ (200 ≤ n → derive_range_category n = "Long Range")
    ∧ derive_range_category 0 = "Unknown"
    ∧ derive_range_category 99 = "Short Range"
    ∧ derive_range_category 100 = "Medium Range"
    ∧ derive_range_category 199 = "Medium Range"
    ∧ derive_range_category 200 = "Long Range"
    ∧ (derive_range_category n = "Unknown" ∨ derive_range_category n = "Short Range"
        ∨ derive_range_category n = "Medium Range" ∨ derive_range_category n = "Long Range")
    ∧ c.range_category = derive_range_category c.electric_range := by
  have s1 : ("Short Range" : String) ≠ "Unknown" := by decide
  have s2 : ("Medium Range" : String) ≠ "Unknown" := by decide
  have s3 : ("Long Range" : String) ≠ "Unknown" := by decide
  refine ⟨?_, ?_, ?_, ?_, rfl, rfl, rfl, rfl, rfl, ?_,
    (clean_row_ok_fields row c h).2.1⟩
  · unfold derive_range_category
    split_ifs with h1 h2 h3
    · simp [h1]
    · simp [s1, h1]
    · simp [s2, h1]
    · simp [s3, h1]
  · intro hn hlt
    unfold derive_range_category
    rw [if_neg hn, if_pos hlt]
  · intro hn hge hlt
    unfold derive_range_category
    rw [if_neg hn, if_neg (by omega), if_pos hlt]
  · intro h200
    unfold derive_range_category
    rw [if_neg (by omega), if_neg (by omega), if_neg (by omega)]
  · unfold derive_range_category
    split_ifs <;> simp

/-- Witness for `C4_range_category` at range 150. -/
theorem C4_range_category_witness :
    clean_row rawGood = .ok goodClean
    ∧ ((150 : Int) ≠ 0 → (100 : Int) ≤ 150 → (150 : Int) < 200 →
        derive_range_category 150 = "Medium Range")
    ∧ goodClean.range_category = derive_range_category goodClean.electric_range :=
  ⟨rfl, (C4_range_category 150 rawGood goodClean rfl).2.2.1,
    (C4_range_category 150 rawGood goodClean rfl).2.2.2.2.2.2.2.2.2.2⟩

/-- C5: `parse_vehicle_location` on text of the regex form
`POINT (<lon> <lat>)` returns the pair `(latitude, longitude)` where latitude
is the SECOND captured number and longitude the FIRST; on the spec's example
it yields latitude 47.659185 and longitude -122.34301 (exact decimal values);
absent, blank and non-matching input give the fully absent pair; and for every
input the two coordinates are both present or both absent, never one without
the other (the function is total by construction, so it never raises). -/
theorem C5_point_swap (lon lat : NumToken) (o : Option String)
    (hlon : lon.wfb = true) (hlat : lat.wfb = true) :
    parse_vehicle_location (some ⟨pointList lon lat []⟩) = (some lat.val, some lon.val)
    ∧ parse_vehicle_location (some "POINT (-122.34301 47.659185)")
        = (some ⟨47659185, 6⟩, some ⟨-12234301, 5⟩)
    ∧ (⟨47659185, 6⟩ : DecNum).toRat = 47659185 / 1000000
    ∧ (⟨-12234301, 5⟩ : DecNum).toRat = -12234301 / 100000
    ∧ parse_vehicle_location none = (none, none)
    ∧ parse_vehicle_location (some "") = (none, none)
    ∧ parse_vehicle_location (some "nonsense with no point pattern") = (none, none)
    ∧ (parse_vehicle_location o).1.isSome = (parse_vehicle_location o).2.isSome := by
  refine ⟨parse_pointList lon lat [] hlon hlat, by decide, ?_, ?_, rfl, by decide, by decide,
    parse_both_or_neither o⟩
  · simp [DecNum.toRat]
  · simp [DecNum.toRat]

/-- Witness for `C5_point_swap` at the tokens of `-122.34301` and
`47.659185`. -/
theorem C5_point_swap_witness :
    (⟨true, ['1', '2', '2'], some ['3', '4', '3', '0', '1']⟩ : NumToken).wfb = true
    ∧ (⟨false, ['4', '7'], some ['6', '5', '9', '1', '8', '5']⟩ : NumToken).wfb = true
    ∧ parse_vehicle_location
        (some ⟨pointList ⟨true, ['1', '2', '2'], some ['3', '4', '3', '0', '1']⟩
          ⟨false, ['4', '7'], some ['6', '5', '9', '1', '8', '5']⟩ []⟩)
      = (some (⟨false, ['4', '7'], some ['6', '5', '9', '1', '8', '5']⟩ : NumToken).val,
         some (⟨true, ['1', '2', '2'], some ['3', '4', '3', '0', '1']⟩ : NumToken).val) :=
  ⟨by decide, by decide,
    (C5_point_swap ⟨true, ['1', '2', '2'], some ['3', '4', '3', '0', '1']⟩
      ⟨false, ['4', '7'], some ['6', '5', '9', '1', '8', '5']⟩ none
      (by decide) (by decide)).1⟩

/-- C10: the regex is matched as a PREFIX (`re.match` anchors at the start
only): well-formed `POINT (<lon> <lat>)` text followed by arbitrary trailing
characters still parses to the swapped coordinate pair, while any first
character other than `P` (e.g. leading whitespace) makes the parse return the
absent pair. -/
theorem C10_prefix_match (lon lat : NumToken) (rest : List Char) (c : Char) (l : List Char)
    (hlon : lon.wfb = true) (hlat : lat.wfb = true) (hc : c ≠ 'P') :
    parse_vehicle_location (some ⟨pointList lon lat rest⟩) = (some lat.val, some lon.val)
    ∧ parse_vehicle_location (some ⟨c :: l⟩) = (none, none) :=
  ⟨parse_pointList lon lat rest hlon hlat, parse_cons_ne_P c l hc⟩

/-- Witness for `C10_prefix_match`: trailing garbage after the closing
parenthesis is accepted, and a leading space makes the same text fail. -/
theorem C10_prefix_match_witness :
    (⟨false, ['1'], none⟩ : NumToken).wfb = true
    ∧ (⟨true, ['2'], some ['5']⟩ : NumToken).wfb = true
    ∧ (' ' ≠ 'P')
    ∧ parse_vehicle_location
        (some ⟨pointList ⟨false, ['1'], none⟩ ⟨true, ['2'], some ['5']⟩ " trailing garbage".data⟩)
      = (some (⟨true, ['2'], some ['5']⟩ : NumToken).val, some (⟨false, ['1'], none⟩ : NumToken).val)
    ∧ parse_vehicle_location (some ⟨' ' :: "POINT (1 -2.5)".data⟩) = (none, none) :=
  ⟨by decide, by decide, by decide,
    (C10_prefix_match ⟨false, ['1'], none⟩ ⟨true, ['2'], some ['5']⟩ " trailing garbage".data
      ' ' "POINT (1 -2.5)".data (by decide) (by decide) (by decide)).1,
    (C10_prefix_match ⟨false, ['1'], none⟩ ⟨true, ['2'], some ['5']⟩ " trailing garbage".data
      ' ' "POINT (1 -2.5)".data (by decide) (by decide) (by decide)).2⟩
